import Mathlib

/-!
Shallow embedding of the typing-test application (BAXTOR95/typing-test):
`typing_test.py` (class TypingTest) and `score_manager.py` (class ScoreManager).
Strings are modelled as `List Char`, Python floats as `ℚ`, and the
tkinter widget contents that the session logic reads and writes
(display text, input field, enablement) as explicit state fields.
Label text updates (speed/accuracy/timer labels) are presentation-only
side effects and are not part of the model.
-/

/-- Python whitespace for `str.split()` / `str.strip()` (ASCII cases). -/
def pyIsSpace (c : Char) : Bool :=
  c = ' ' || c = '\t' || c = '\n' || c = '\r' || c = '\x0b' || c = '\x0c'

/-- Python `str.split()` with no separator: maximal runs of
non-whitespace characters; empty tokens are dropped. -/
def pySplit (s : List Char) : List (List Char) :=
  (s.splitOnP pyIsSpace).filter (fun w => !w.isEmpty)

/-- Python `str.strip()`: remove leading and trailing whitespace. -/
def pyStrip (s : List Char) : List Char :=
  ((s.dropWhile pyIsSpace).reverse.dropWhile pyIsSpace).reverse

/-- `typing_test.py` lines 161-164: the generator expression
`sum(typed_char == original_char for typed_char, original_char in
zip(typed_text, original_text))`. -/
def matchCount (typed_text original_text : List Char) : Nat :=
  List.countP (fun p => decide (p.1 = p.2)) (typed_text.zip original_text)

/-- `TypingTest.calculate_accuracy` (`typing_test.py` lines 145-167):
returns 0 when `original_text` is empty (Python falsiness of the empty
string), otherwise `matches / len(original_text) * 100`. -/
def calculate_accuracy (typed_text original_text : List Char) : ℚ :=
  if original_text = [] then 0
  else (matchCount typed_text original_text : ℚ) / (original_text.length : ℚ) * 100

/-- `TypingTest.calculate_speed` (`typing_test.py` lines 126-143), with the
instance attributes `start_time` and `end_time` passed explicitly:
`elapsed_time = max(end_time - start_time, 1)`,
`elapsed_minutes = elapsed_time / 60.0`,
`word_count = len(typed_text.split())`, `wpm = word_count / elapsed_minutes`. -/
def calculate_speed (start_time end_time : ℚ) (typed_text : List Char) : ℚ :=
  let elapsed_time := max (end_time - start_time) 1
  let elapsed_minutes := elapsed_time / 60
  let word_count : ℚ := ((pySplit typed_text).length : ℚ)
  word_count / elapsed_minutes

/-- Spec-side positional formulation of the accuracy count: the number of
indices `i` in `[0, min(len(typed), len(original)))` at which the two
texts agree. -/
def posMatchCount (typed_text original_text : List Char) : Nat :=
  List.countP (fun i => decide (typed_text[i]? = original_text[i]?))
    (List.range (min typed_text.length original_text.length))

theorem matchCount_eq_posMatchCount (typed original : List Char) :
    matchCount typed original = posMatchCount typed original := by
  induction typed generalizing original with
  | nil => simp [matchCount, posMatchCount]
  | cons a as ih =>
    cases original with
    | nil => simp [matchCount, posMatchCount]
    | cons b bs =>
      have h := ih bs
      have hp : ((fun i => decide ((a :: as)[i]? = (b :: bs)[i]?)) ∘ Nat.succ) =
          (fun i => decide (as[i]? = bs[i]?)) := by
        funext i
        simp
      simp only [matchCount, posMatchCount] at h ⊢
      rw [List.zip_cons_cons, List.countP_cons, List.length_cons, List.length_cons,
        Nat.succ_min_succ, List.range_succ_eq_map, List.countP_cons, List.countP_map, hp, h]
      simp

theorem zip_take_left_length (as bs : List Char) :
    (as.take bs.length).zip bs = as.zip bs := by
  induction as generalizing bs with
  | nil => simp
  | cons a as ih =>
    cases bs with
    | nil => simp
    | cons b bs => simp [ih]

theorem calculate_accuracy_take (typed original : List Char) :
    calculate_accuracy typed original =
      calculate_accuracy (typed.take original.length) original := by
  unfold calculate_accuracy matchCount
  rw [zip_take_left_length]

theorem matchCount_self (t : List Char) : matchCount t t = t.length := by
  induction t with
  | nil => simp [matchCount]
  | cons a as ih => simp [matchCount, List.countP_cons] at ih ⊢; omega

/-- C1: `calculate_accuracy` returns 0 on an empty original text, and
otherwise the count of matching positions over
`[0, min(len(typed), len(original)))` divided by `len(original)` times
100; characters of the typed text beyond `len(original)` never affect
the result; and on the scenario typed "hello world" vs original
"hello there" the result is exactly the positional formula, namely
6 matches out of 11, i.e. 600/11. -/
theorem claim1_accuracy_positional :
    (∀ typed original : List Char,
      calculate_accuracy typed original =
        if original = [] then 0
        else (posMatchCount typed original : ℚ) / (original.length : ℚ) * 100)
    ∧ (∀ typed original : List Char,
      calculate_accuracy typed original =
        calculate_accuracy (typed.take original.length) original)
    ∧ calculate_accuracy "hello world".data "hello there".data =
        (posMatchCount "hello world".data "hello there".data : ℚ) /
          (("hello there".data.length : ℚ)) * 100
    ∧ calculate_accuracy "hello world".data "hello there".data = 600 / 11 := by
  refine ⟨?_, calculate_accuracy_take, ?_, ?_⟩
  · intro typed original
    rw [calculate_accuracy, matchCount_eq_posMatchCount]
  · rw [calculate_accuracy, matchCount_eq_posMatchCount, if_neg (by decide)]
  · have hm : matchCount "hello world".data "hello there".data = 6 := by decide
    have hl : "hello there".data.length = 11 := by decide
    rw [calculate_accuracy, if_neg (by decide), hm, hl]
    norm_num

/-- C9: accuracy of a non-empty text against itself is 100; accuracy of
the empty typed text against a non-empty original is 0; accuracy against
an empty original is 0 for any typed text. -/
theorem claim9_accuracy_algebraic :
    (∀ t : List Char, t ≠ [] → calculate_accuracy t t = 100)
    ∧ (∀ o : List Char, o ≠ [] → calculate_accuracy [] o = 0)
    ∧ (∀ x : List Char, calculate_accuracy x [] = 0) := by
  refine ⟨?_, ?_, ?_⟩
  · intro t ht
    have hlen0 : t.length ≠ 0 := fun hh => ht (List.length_eq_zero.mp hh)
    have hlen : (t.length : ℚ) ≠ 0 := Nat.cast_ne_zero.mpr hlen0
    simp [calculate_accuracy, ht, matchCount_self, div_self hlen]
  · intro o ho
    simp [calculate_accuracy, ho, matchCount]
  · intro x
    simp [calculate_accuracy]

theorem claim9_witness :
    (['a'] ≠ ([] : List Char) ∧ calculate_accuracy ['a'] ['a'] = 100)
    ∧ (['b'] ≠ ([] : List Char) ∧ calculate_accuracy [] ['b'] = 0) :=
  ⟨⟨by decide, claim9_accuracy_algebraic.1 ['a'] (by decide)⟩,
   ⟨by decide, claim9_accuracy_algebraic.2.1 ['b'] (by decide)⟩⟩

/-- C2: `calculate_speed` returns the whitespace-split word count of the
typed text divided by `elapsed_minutes = max(end_time - start_time, 1) / 60`,
and that divisor is never zero, including when `end_time = start_time`. -/
theorem claim2_speed_formula (start_time end_time : ℚ) (typed_text : List Char)
    (h : start_time ≤ end_time) :
    max (end_time - start_time) 1 / 60 ≠ 0
    ∧ calculate_speed start_time end_time typed_text =
        ((pySplit typed_text).length : ℚ) / (max (end_time - start_time) 1 / 60) := by
  refine ⟨?_, rfl⟩
  have h1 : (0 : ℚ) < max (end_time - start_time) 1 :=
    lt_of_lt_of_le one_pos (le_max_right _ 1)
  have h2 : (0 : ℚ) < max (end_time - start_time) 1 / 60 := by positivity
  exact ne_of_gt h2

theorem claim2_witness :
    ((0 : ℚ) ≤ 0
    ∧ (max ((0 : ℚ) - 0) 1 / 60 ≠ 0
       ∧ calculate_speed 0 0 "hi there".data =
           ((pySplit "hi there".data).length : ℚ) / (max ((0 : ℚ) - 0) 1 / 60)))
    ∧ calculate_speed 0 0 "hi there".data = 120 :=
  ⟨⟨le_refl 0, claim2_speed_formula 0 0 "hi there".data (le_refl 0)⟩, by
    have h2 : (pySplit "hi there".data).length = 2 := by decide
    simp only [calculate_speed, h2]
    norm_num⟩

/-- A high-score record (`score_manager.py` lines 62-68): the dict
`{"name": ..., "score": ..., "accuracy": ..., "date": ...}`. -/
structure ScoreRecord where
  name : List Char
  score : ℚ
  accuracy : ℚ
  date : List Char
deriving DecidableEq

/-- Descending order on records by score, as produced by
`list.sort(key=lambda x: x["score"], reverse=True)`. -/
def scoreGE (a b : ScoreRecord) : Prop := b.score ≤ a.score

instance : DecidableRel scoreGE := fun a b => inferInstanceAs (Decidable (b.score ≤ a.score))

instance : IsTotal ScoreRecord scoreGE := ⟨fun a b => le_total b.score a.score⟩

instance : IsTrans ScoreRecord scoreGE := ⟨fun _ _ _ h1 h2 => le_trans h2 h1⟩

/-- `ScoreManager.add_score` (`score_manager.py` lines 51-73): appends the
new record, sorts the whole list descending by score with a stable sort
(Python `list.sort` is stable; `reverse=True` keeps ties in insertion
order), and truncates to the first 10. The current date
(`datetime.now().strftime("%Y-%m-%d")`) is passed in as `today`; the
final `save_scores()` call is persistence and returns no data. -/
def add_score (high_scores : List ScoreRecord) (name : List Char)
    (score accuracy : ℚ) (today : List Char) : List ScoreRecord :=
  let new_score : ScoreRecord := ⟨name, score, accuracy, today⟩
  (List.insertionSort scoreGE (high_scores ++ [new_score])).take 10

/-- C5: after any `add_score` call the leaderboard has at most 10 records
and is sorted descending by score; and from the empty leaderboard,
adding Alice (score 80, accuracy 95) then Bob (score 90, accuracy 92)
yields [Bob, Alice]. -/
theorem claim5_leaderboard_invariant :
    (∀ (hs : List ScoreRecord) (name : List Char) (sc ac : ℚ) (d : List Char),
      (add_score hs name sc ac d).length ≤ 10)
    ∧ (∀ (hs : List ScoreRecord) (name : List Char) (sc ac : ℚ) (d : List Char),
      List.Sorted scoreGE (add_score hs name sc ac d))
    ∧ (∀ d1 d2 : List Char,
      add_score (add_score [] "Alice".data 80 95 d1) "Bob".data 90 92 d2 =
        [⟨"Bob".data, 90, 92, d2⟩, ⟨"Alice".data, 80, 95, d1⟩]) := by
  refine ⟨?_, ?_, ?_⟩
  · intro hs name sc ac d
    have hlen : (add_score hs name sc ac d).length =
        min 10 (List.insertionSort scoreGE (hs ++ [⟨name, sc, ac, d⟩])).length := by
      simp [add_score]
    rw [hlen]
    exact Nat.min_le_left 10 _
  · intro hs name sc ac d
    have hsorted := List.sorted_insertionSort scoreGE (hs ++ [⟨name, sc, ac, d⟩])
    exact hsorted.sublist (List.take_sublist 10 _)
  · intro d1 d2
    have hle : ¬ scoreGE ⟨"Alice".data, 80, 95, d1⟩ ⟨"Bob".data, 90, 92, d2⟩ := by
      simp [scoreGE]
      norm_num
    simp [add_score, List.insertionSort, List.orderedInsert, hle]

/-- The possible outcomes of reading the high-score file in
`ScoreManager.load_scores` (`score_manager.py` lines 18-38): a successful
parse, a missing file (`FileNotFoundError`), corrupt contents
(`json.JSONDecodeError`), or any other exception. -/
inductive ReadResult where
  | ok (records : List ScoreRecord)
  | fileNotFound
  | jsonDecodeError
  | otherError (msg : List Char)

/-- `ScoreManager.load_scores` (`score_manager.py` lines 18-38): returns
the parsed records on success; every `except` branch returns `[]`
(after printing a log line), so no exception escapes. -/
def load_scores : ReadResult → List ScoreRecord
  | .ok records => records
  | .fileNotFound => []
  | .jsonDecodeError => []
  | .otherError _ => []

/-- C6: `load_scores` is total (no exception propagates) and returns the
empty leaderboard on a missing file, on corrupt contents, and on any
other read error. -/
theorem claim6_load_never_raises :
    load_scores .fileNotFound = []
    ∧ load_scores .jsonDecodeError = []
    ∧ (∀ msg : List Char, load_scores (.otherError msg) = []) :=
  ⟨rfl, rfl, fun _ => rfl⟩

/-- The session state of `TypingTest` (`typing_test.py` lines 24-44)
together with the widget contents its methods read and write: the
display text, the input field text and enablement, and the
`ScoreManager` leaderboard it delegates to. `tickArmed` models a
scheduled `update_timer` callback (`timer_update_id`), `deadlineArmed`
the one-shot `after(60000, end_test_programmatically)` deadline. -/
structure TestState where
  displayText : List Char
  inputText : List Char
  inputEnabled : Bool
  start_time : Option ℚ
  end_time : Option ℚ
  test_ended : Bool
  remaining_time : Int
  tickArmed : Bool
  deadlineArmed : Bool
  highScores : List ScoreRecord
deriving DecidableEq

/-- The Python exception raised inside `TypingTest.end`. -/
inductive PyError where
  | typeErrorCalculateSpeedArity
deriving DecidableEq

/-- Outcome of one invocation of `TypingTest.end`. -/
inductive EndOutcome where
  | alreadyEnded
  | raised (e : PyError)
deriving DecidableEq

/-- `TypingTest.end` (`typing_test.py` lines 82-116). If `test_ended` is
already true it returns at once (line 84-85). Otherwise it sets
`test_ended := true` (line 87) and `end_time := now` (line 89), snapshots
the typed and original texts (lines 90-91), and then line 93 evaluates
`self.calculate_speed(typed_text, original_text)`: that call passes two
arguments to a method whose signature (line 126) takes only
`typed_text`, so Python raises `TypeError` at that point and the rest of
the method (accuracy computation, name prompt, `add_score`, input
clearing, timer reset and cancel, high-score display, lines 94-116) is
unreachable. `responses` models the successive results of the
`simpledialog.askstring` name prompt; it is never consulted because the
`TypeError` aborts the method first. -/
def endTest (s : TestState) (now : ℚ)
    (responses : List (Option (List Char))) : TestState × EndOutcome :=
  if s.test_ended then (s, .alreadyEnded)
  else
    ({ s with test_ended := true, end_time := some now },
     .raised .typeErrorCalculateSpeedArity)

/-- `TypingTest.update_timer` (`typing_test.py` lines 46-57): when the
remaining time has reached 0, calls `end` (via
`end_test_programmatically`) and schedules no further tick; otherwise
decrements `remaining_time` and re-arms itself for the next second. -/
def update_timer (s : TestState) (now : ℚ)
    (responses : List (Option (List Char))) : TestState :=
  if s.remaining_time ≤ 0 then (endTest s now responses).1
  else { s with remaining_time := s.remaining_time - 1, tickArmed := true }

/-- Outcome of one invocation of `TypingTest.start_test`. -/
inductive StartOutcome where
  | noTextLoaded
  | started
deriving DecidableEq

/-- `TypingTest.start_test` (`typing_test.py` lines 59-80): reads the
display text and strips it; if the result is empty, prints
"No text loaded for the test." and returns with no other effect.
Otherwise resets `test_ended`, rewrites the display text, clears and
enables the input field, records `start_time = now`, arms the 60-second
deadline, resets `remaining_time` to 60 and runs `update_timer` once
(which immediately decrements to 59 and arms the per-second tick). -/
def start_test (s : TestState) (now : ℚ)
    (responses : List (Option (List Char))) : TestState × StartOutcome :=
  let text := pyStrip s.displayText
  if text = [] then (s, .noTextLoaded)
  else
    let s1 : TestState :=
      { s with
        test_ended := false,
        displayText := text,
        inputText := [],
        inputEnabled := true,
        start_time := some now,
        deadlineArmed := true,
        remaining_time := 60 }
    (update_timer s1 now responses, .started)

/-- The name-prompt loop in `TypingTest.end` (`typing_test.py` lines
96-101): `name = None; while not name: name = askstring(...); if name is
None: return`. Each element of `responses` is one dialog result: `none`
for a cancelled dialog (Python `None`), `some t` for entered text `t`.
A cancellation aborts with no name; an empty entered string re-asks; the
first non-empty entered string is returned. An exhausted response list
stands for no further response. (This loop is unreachable in the source
because of the `TypeError` raised at line 93, but it is the code of
lines 96-101.) -/
def askNameLoop : List (Option (List Char)) → Option (List Char)
  | [] => none
  | none :: _ => none
  | some name :: rest => if name = [] then askNameLoop rest else some name

/-- A sample Running-phase session used as concrete input: the user has
typed "hello world" against "hello there", 30 seconds remain. -/
def runningState : TestState :=
  { displayText := "hello there".data,
    inputText := "hello world".data,
    inputEnabled := true,
    start_time := some 0,
    end_time := none,
    test_ended := false,
    remaining_time := 30,
    tickArmed := true,
    deadlineArmed := true,
    highScores := [] }

/-- A sample Idle session with empty display text and one existing
leaderboard record. -/
def aliceRecord : ScoreRecord := ⟨"Alice".data, 80, 95, "2024-01-01".data⟩

/-- The running sample with one pre-existing leaderboard record. -/
def runningWithAlice : TestState := { runningState with highScores := [aliceRecord] }

/-- An Idle session whose display text is empty. -/
def emptyIdleState : TestState :=
  { displayText := [],
    inputText := [],
    inputEnabled := false,
    start_time := none,
    end_time := none,
    test_ended := false,
    remaining_time := 60,
    tickArmed := false,
    deadlineArmed := false,
    highScores := [aliceRecord] }

/-- C3 (code bug): on a Running session, `end` does not complete the
end-of-test computation: after setting `test_ended` and `end_time`, the
call `self.calculate_speed(typed_text, original_text)` at
`typing_test.py` line 93 passes two arguments to a one-parameter method,
so a `TypeError` escapes `end` and neither speed nor accuracy is
computed, contrary to the claim that no exception escapes. -/
theorem claim3_end_raises_typeerror :
    endTest runningState 42 [some "Alice".data] =
      ({ runningState with test_ended := true, end_time := some 42 },
       .raised .typeErrorCalculateSpeedArity) := rfl

/-- C4 (code bug): invoking `end` twice on a Running session adds zero
ScoreRecords, not one: the first invocation raises `TypeError` before
reaching `add_score`, leaving the leaderboard empty; the second
invocation is indeed a no-op thanks to the `test_ended` guard. -/
theorem claim4_double_end_zero_records :
    (endTest runningState 30 [some "Alice".data]).2 =
      .raised .typeErrorCalculateSpeedArity
    ∧ endTest (endTest runningState 30 [some "Alice".data]).1 31
        [some "Alice".data] =
      ((endTest runningState 30 [some "Alice".data]).1, .alreadyEnded)
    ∧ ((endTest (endTest runningState 30 [some "Alice".data]).1 31
        [some "Alice".data]).1).highScores.length = 0 :=
  ⟨rfl, rfl, rfl⟩

/-- C7: calling `start_test` while the display text is empty signals
"no text loaded" and has no other effect: the returned state is exactly
the input state (so start time, remaining seconds, typed input, input
enablement, and the armed timers are all unmodified and the session
stays Idle). -/
theorem claim7_empty_text_no_effect (s : TestState) (now : ℚ)
    (rs : List (Option (List Char))) (h : s.displayText = []) :
    start_test s now rs = (s, .noTextLoaded) := by
  simp [start_test, h, pyStrip]

theorem claim7_witness :
    emptyIdleState.displayText = []
    ∧ start_test emptyIdleState 7 [] = (emptyIdleState, .noTextLoaded) :=
  ⟨rfl, claim7_empty_text_no_effect emptyIdleState 7 [] rfl⟩

/-- C8: when the test has just been running and the first name-prompt
response would be a cancellation, `end` records no score: the
leaderboard is unchanged (same list, same length, so no ScoreRecord is
constructed) and the session remains in the Ended phase
(`test_ended = true`). In the source this holds because `end` aborts
with a `TypeError` at line 93, before the prompt is ever shown; the
cancellation branch at lines 99-100 is unreachable. -/
theorem claim8_cancel_no_score (s : TestState) (now : ℚ)
    (rs : List (Option (List Char)))
    (hcancel : rs.head? = some none) (hrun : s.test_ended = false) :
    (endTest s now rs).1.highScores = s.highScores
    ∧ (endTest s now rs).1.highScores.length = s.highScores.length
    ∧ (endTest s now rs).1.test_ended = true := by
  simp [endTest, hrun]

theorem claim8_witness :
    (([none] : List (Option (List Char))).head? = some none
     ∧ runningState.test_ended = false)
    ∧ ((endTest runningState 5 [none]).1.highScores = runningState.highScores
       ∧ (endTest runningState 5 [none]).1.highScores.length =
           runningState.highScores.length
       ∧ (endTest runningState 5 [none]).1.test_ended = true) :=
  ⟨⟨rfl, rfl⟩, claim8_cancel_no_score runningState 5 [none] rfl rfl⟩

/-- C10: the name-prompt loop of lines 96-101 only ever produces a
non-empty name (an empty entry re-asks, a cancellation produces no name
at all), and `end` never adds a record to the leaderboard that was not
already there (in the source, because the `TypeError` at line 93 aborts
`end` before `add_score`); hence `end` never records a ScoreRecord with
an empty name. -/
theorem claim10_recorded_names_nonempty :
    (∀ (rs : List (Option (List Char))) (n : List Char),
      askNameLoop rs = some n → n ≠ [])
    ∧ (∀ (s : TestState) (now : ℚ) (rs : List (Option (List Char)))
        (r : ScoreRecord),
      r ∈ (endTest s now rs).1.highScores → r ∈ s.highScores) := by
  constructor
  · intro rs
    induction rs with
    | nil =>
      intro n h
      simp [askNameLoop] at h
    | cons rOpt rest ih =>
      intro n h
      cases rOpt with
      | none => simp [askNameLoop] at h
      | some name =>
        rw [askNameLoop] at h
        by_cases hname : name = []
        · rw [if_pos hname] at h
          exact ih n h
        · rw [if_neg hname] at h
          have hn : name = n := Option.some.inj h
          subst hn
          exact hname
  · intro s now rs r hr
    by_cases h : s.test_ended
    · simpa [endTest, h] using hr
    · simpa [endTest, h] using hr

theorem claim10_witness :
    (askNameLoop [some "Bob".data] = some "Bob".data ∧ "Bob".data ≠ [])
    ∧ aliceRecord ∈ runningWithAlice.highScores :=
  ⟨⟨rfl, claim10_recorded_names_nonempty.1 [some "Bob".data] "Bob".data rfl⟩,
   claim10_recorded_names_nonempty.2 runningWithAlice 3 [] aliceRecord
     (List.mem_singleton_self aliceRecord)⟩
